import Mathlib

/-!
Shallow embedding of the iceball-probability estimator in `Cryo.py`
(class `CryoLogic`), together with theorems settling the frozen claims
about its specification.

Python floats are modelled as real numbers; numpy `sqrt`, `exp` and `abs`
become `Real.sqrt`, `Real.exp` and `|·|`.  Python's `int(x)` conversion and
numpy's float-to-int64 assignment (both truncation toward zero) are
modelled by `pyTrunc`.
-/

open Real

/-- Module-level constant `SLICE_N = 40` (Cryo.py line 11). -/
def SLICE_N : ℕ := 40

/-- Module-level constant `THRESHOLD = 0.8` (Cryo.py line 12). -/
noncomputable def THRESHOLD : ℝ := 0.8

/-- A physical- or index-space 3-D point (x, y, z). -/
structure P3 where
  x : ℝ
  y : ℝ
  z : ℝ

instance : Inhabited P3 := ⟨⟨0, 0, 0⟩⟩

/-- A homogeneous 4-vector, the result of `vtkMatrix4x4.MultiplyDoublePoint`. -/
structure V4 where
  x : ℝ
  y : ℝ
  z : ℝ
  w : ℝ

/-- A `vtkMatrix4x4`: sixteen real entries in row-major order. -/
structure Mat4 where
  m00 : ℝ
  m01 : ℝ
  m02 : ℝ
  m03 : ℝ
  m10 : ℝ
  m11 : ℝ
  m12 : ℝ
  m13 : ℝ
  m20 : ℝ
  m21 : ℝ
  m22 : ℝ
  m23 : ℝ
  m30 : ℝ
  m31 : ℝ
  m32 : ℝ
  m33 : ℝ

/-- `vtkMatrix4x4.MultiplyDoublePoint`: multiply the 4×4 matrix by a
homogeneous 4-vector. -/
def Mat4.multiplyDoublePoint (M : Mat4) (v : V4) : V4 :=
  ⟨M.m00 * v.x + M.m01 * v.y + M.m02 * v.z + M.m03 * v.w,
   M.m10 * v.x + M.m11 * v.y + M.m12 * v.z + M.m13 * v.w,
   M.m20 * v.x + M.m21 * v.y + M.m22 * v.z + M.m23 * v.w,
   M.m30 * v.x + M.m31 * v.y + M.m32 * v.z + M.m33 * v.w⟩

/-- Python's `int(x)` on a float, and numpy's float64→int64 cast on
assignment into an integer array: truncation toward zero. -/
noncomputable def pyTrunc (x : ℝ) : ℤ :=
  if 0 ≤ x then ⌊x⌋ else ⌈x⌉

namespace CryoLogic

/-- `CryoLogic.GetDistances` (Cryo.py lines 279–314): the 2-probe
empirical iceball-probability model.  The dead local `distanceProbes`
of the source is kept as an unused binding. -/
noncomputable def GetDistances (Pr1 Pr2 p Uretra : P3) : ℝ :=
  -- par = [4.1, -0.006, -0.0038, 0.18, -1.1, 0.4, 0.4, 0.4]; entries 4–7 unused
  let par0 : ℝ := 4.1
  let par1 : ℝ := -0.006
  let par2 : ℝ := -0.0038
  let par3 : ℝ := 0.18
  let _distanceProbes := Real.sqrt ((Pr1.x - Pr2.x) * (Pr1.x - Pr2.x) +
    (Pr1.y - Pr2.y) * (Pr1.y - Pr2.y) + (Pr1.z - Pr2.z) * (Pr1.z - Pr2.z))
  let distance1_0 := (-Pr1.x + p.x) * (-Pr1.x + p.x)
  let distance1_1 := (-Pr1.y + p.y) * (-Pr1.y + p.y)
  let distance1_2 := (-Pr1.z + p.z)
  let distance2_0 := (Pr2.x - p.x) * (Pr2.x - p.x)
  let distance2_1 := (Pr2.y - p.y) * (Pr2.y - p.y)
  let distance2_2 := (-Pr2.z + p.z)
  let distance3_0 := (Uretra.x - p.x) * (Uretra.x - p.x)
  let distance3_1 := (Uretra.y - p.y) * (Uretra.y - p.y)
  let distance3_2 := (Uretra.z - p.z) * (Uretra.z - p.z)
  let suma := Real.sqrt (distance1_0 + distance1_1) + Real.sqrt (distance2_0 + distance2_1)
  let suma := suma * suma / 1.0
  let suma2 := |distance1_2| + |distance2_2|
  let suma2 := suma2 * suma2 / 1.0
  let value := par0 + par1 * suma + par2 * suma2 +
    par3 * Real.sqrt (distance3_0 + distance3_1 + distance3_2)
  if Real.sqrt (distance3_0 + distance3_1 + distance3_2) > 5 then
    Real.exp value / (1 + Real.exp value)
  else
    0

/-- `CryoLogic.GetDistances3` (Cryo.py lines 236–277): the 3-probe
empirical iceball-probability model.  The dead locals (`distanceProbes`,
`offset`, `distance1a/b`, `distance2a/b`) of the source are kept as
unused bindings. -/
noncomputable def GetDistances3 (Pr1 Pr2 Pr3 p Uretra : P3) : ℝ :=
  -- par = [4.1, -0.006, -0.0038, 0.08, -1.1, 0.4, 0.4, 0.06]; entries 4–7 unused
  let par0 : ℝ := 4.1
  let par1 : ℝ := -0.006
  let par2 : ℝ := -0.0038
  let par3 : ℝ := 0.08
  let _distanceProbes := Real.sqrt ((Pr1.x - Pr2.x) * (Pr1.x - Pr2.x) +
    (Pr1.y - Pr2.y) * (Pr1.y - Pr2.y) + (Pr1.z - Pr2.z) * (Pr1.z - Pr2.z))
  let offset : ℝ := 3.0
  let distance1_0 := (-Pr1.x + p.x) * (-Pr1.x + p.x)
  let distance1_1 := (-Pr1.y + p.y) * (-Pr1.y + p.y)
  let distance1_2 := (-Pr1.z + p.z)
  let _distance1a := (Pr1.z - offset - p.z) * (Pr1.z - offset - p.z)
  let _distance1b := (Pr1.z + offset - p.z) * (Pr1.z + offset - p.z)
  let distance2_0 := (Pr2.x - p.x) * (Pr2.x - p.x)
  let distance2_1 := (Pr2.y - p.y) * (Pr2.y - p.y)
  let distance2_2 := (-Pr2.z + p.z)
  let _distance2a := (Pr2.z - offset - p.z) * (Pr2.z - offset - p.z)
  let _distance2b := (Pr2.z + offset - p.z) * (Pr2.z + offset - p.z)
  let distance3_0 := (Uretra.x - p.x) * (Uretra.x - p.x)
  let distance3_1 := (Uretra.y - p.y) * (Uretra.y - p.y)
  let distance3_2 := (Uretra.z - p.z) * (Uretra.z - p.z)
  let distance4_0 := (Pr3.x - p.x) * (Pr3.x - p.x)
  let distance4_1 := (Pr3.y - p.y) * (Pr3.y - p.y)
  let distance4_2 := (-Pr3.z + p.z)
  let suma := Real.sqrt (distance1_0 + distance1_1) + Real.sqrt (distance2_0 + distance2_1) +
    Real.sqrt (distance4_0 + distance4_1)
  let suma := suma * suma / 4.0
  let suma2 := |distance1_2| + |distance2_2| + |distance4_2|
  let suma2 := suma2 * suma2 / 4.0
  let value := par0 + par1 * suma + par2 * suma2 +
    par3 * Real.sqrt (distance3_0 + distance3_1 + distance3_2)
  Real.exp value / (1 + Real.exp value)

end CryoLogic

/-- The in-plane (x, y) Euclidean offset of a sample point `p` from a
probe tip `q`, as worded by the spec. -/
noncomputable def inPlaneOffset (p q : P3) : ℝ :=
  Real.sqrt ((p.x - q.x) ^ 2 + (p.y - q.y) ^ 2)

/-- The full 3-D Euclidean distance between two points, as worded by the
spec. -/
noncomputable def euclidDist (p q : P3) : ℝ :=
  Real.sqrt ((p.x - q.x) ^ 2 + (p.y - q.y) ^ 2 + (p.z - q.z) ^ 2)

/-- The 2-probe model as worded by the spec (claim C1): coefficients
`[4.1, -0.006, -0.0038, 0.18]`, `planeSum` the undivided square of the sum
of the two in-plane offsets, `zSum` the undivided square of the sum of the
two absolute z offsets, `urethraDist` the full 3-D distance to the urethra
point; logistic transform when `urethraDist > 5`, exactly 0 otherwise. -/
noncomputable def spec2ProbeModel (Pr1 Pr2 p U : P3) : ℝ :=
  let planeSum := (inPlaneOffset p Pr1 + inPlaneOffset p Pr2) ^ 2
  let zSum := (|p.z - Pr1.z| + |p.z - Pr2.z|) ^ 2
  let urethraDist := euclidDist p U
  let v := 4.1 - 0.006 * planeSum - 0.0038 * zSum + 0.18 * urethraDist
  if urethraDist > 5 then Real.exp v / (1 + Real.exp v) else 0

/-- The 3-probe model as worded by the spec (claim C2): coefficients
`[4.1, -0.006, -0.0038, 0.08]`, sums over all three probes, each squared
sum divided by 4, and always the logistic transform (no cutoff). -/
noncomputable def spec3ProbeModel (Pr1 Pr2 Pr3 p U : P3) : ℝ :=
  let planeSum := (inPlaneOffset p Pr1 + inPlaneOffset p Pr2 + inPlaneOffset p Pr3) ^ 2 / 4
  let zSum := (|p.z - Pr1.z| + |p.z - Pr2.z| + |p.z - Pr3.z|) ^ 2 / 4
  let urethraDist := euclidDist p U
  let v := 4.1 - 0.006 * planeSum - 0.0038 * zSum + 0.08 * urethraDist
  Real.exp v / (1 + Real.exp v)

/-- C1: for all finite 3-D inputs, the 2-probe model `GetDistances`
computes `v = 4.1 - 0.006*planeSum - 0.0038*zSum + 0.18*urethraDist`,
where `planeSum` is the undivided square of the sum of the two in-plane
Euclidean offsets of the sample point from the probes, `zSum` is the
undivided square of the sum of the two absolute z offsets, and
`urethraDist` is the full 3-D Euclidean distance to the urethra point;
it returns `exp v / (1 + exp v)` when `urethraDist > 5` and exactly 0
when `urethraDist ≤ 5`. -/
theorem getDistances_eq_spec2ProbeModel (Pr1 Pr2 p U : P3) :
    CryoLogic.GetDistances Pr1 Pr2 p U = spec2ProbeModel Pr1 Pr2 p U := by
  unfold CryoLogic.GetDistances spec2ProbeModel inPlaneOffset euclidDist
  simp only
  have h1 : (-Pr1.x + p.x) * (-Pr1.x + p.x) + (-Pr1.y + p.y) * (-Pr1.y + p.y)
      = (p.x - Pr1.x) ^ 2 + (p.y - Pr1.y) ^ 2 := by ring
  have h2 : (Pr2.x - p.x) * (Pr2.x - p.x) + (Pr2.y - p.y) * (Pr2.y - p.y)
      = (p.x - Pr2.x) ^ 2 + (p.y - Pr2.y) ^ 2 := by ring
  have h3 : (U.x - p.x) * (U.x - p.x) + (U.y - p.y) * (U.y - p.y) +
      (U.z - p.z) * (U.z - p.z)
      = (p.x - U.x) ^ 2 + (p.y - U.y) ^ 2 + (p.z - U.z) ^ 2 := by ring
  have h4 : (-Pr1.z + p.z) = (p.z - Pr1.z) := by ring
  have h5 : (-Pr2.z + p.z) = (p.z - Pr2.z) := by ring
  rw [h1, h2, h3, h4, h5]
  have hv : (4.1 : ℝ) + -0.006 *
        ((Real.sqrt ((p.x - Pr1.x) ^ 2 + (p.y - Pr1.y) ^ 2) +
          Real.sqrt ((p.x - Pr2.x) ^ 2 + (p.y - Pr2.y) ^ 2)) *
         (Real.sqrt ((p.x - Pr1.x) ^ 2 + (p.y - Pr1.y) ^ 2) +
          Real.sqrt ((p.x - Pr2.x) ^ 2 + (p.y - Pr2.y) ^ 2)) / 1.0) +
      -0.0038 * ((|p.z - Pr1.z| + |p.z - Pr2.z|) * (|p.z - Pr1.z| + |p.z - Pr2.z|) / 1.0) +
      0.18 * Real.sqrt ((p.x - U.x) ^ 2 + (p.y - U.y) ^ 2 + (p.z - U.z) ^ 2)
      = 4.1 - 0.006 *
        (Real.sqrt ((p.x - Pr1.x) ^ 2 + (p.y - Pr1.y) ^ 2) +
         Real.sqrt ((p.x - Pr2.x) ^ 2 + (p.y - Pr2.y) ^ 2)) ^ 2 -
      0.0038 * (|p.z - Pr1.z| + |p.z - Pr2.z|) ^ 2 +
      0.18 * Real.sqrt ((p.x - U.x) ^ 2 + (p.y - U.y) ^ 2 + (p.z - U.z) ^ 2) := by
    norm_num
    ring
  rw [hv]

/-- C2: for all finite 3-D inputs, the 3-probe model `GetDistances3` uses
coefficients `[4.1, -0.006, -0.0038, 0.08]`, sums the in-plane offsets and
the absolute z offsets over all three probes, squares each sum and divides
the squared sums by 4, forms the same linear combination, and always
returns the logistic transform — no urethra-proximity cutoff. -/
theorem getDistances3_eq_spec3ProbeModel (Pr1 Pr2 Pr3 p U : P3) :
    CryoLogic.GetDistances3 Pr1 Pr2 Pr3 p U = spec3ProbeModel Pr1 Pr2 Pr3 p U := by
  unfold CryoLogic.GetDistances3 spec3ProbeModel inPlaneOffset euclidDist
  simp only
  have h1 : (-Pr1.x + p.x) * (-Pr1.x + p.x) + (-Pr1.y + p.y) * (-Pr1.y + p.y)
      = (p.x - Pr1.x) ^ 2 + (p.y - Pr1.y) ^ 2 := by ring
  have h2 : (Pr2.x - p.x) * (Pr2.x - p.x) + (Pr2.y - p.y) * (Pr2.y - p.y)
      = (p.x - Pr2.x) ^ 2 + (p.y - Pr2.y) ^ 2 := by ring
  have h4 : (Pr3.x - p.x) * (Pr3.x - p.x) + (Pr3.y - p.y) * (Pr3.y - p.y)
      = (p.x - Pr3.x) ^ 2 + (p.y - Pr3.y) ^ 2 := by ring
  have h3 : (U.x - p.x) * (U.x - p.x) + (U.y - p.y) * (U.y - p.y) +
      (U.z - p.z) * (U.z - p.z)
      = (p.x - U.x) ^ 2 + (p.y - U.y) ^ 2 + (p.z - U.z) ^ 2 := by ring
  have h5 : (-Pr1.z + p.z) = (p.z - Pr1.z) := by ring
  have h6 : (-Pr2.z + p.z) = (p.z - Pr2.z) := by ring
  have h7 : (-Pr3.z + p.z) = (p.z - Pr3.z) := by ring
  rw [h1, h2, h4, h3, h5, h6, h7]
  have hv : (4.1 : ℝ) + -0.006 *
        ((Real.sqrt ((p.x - Pr1.x) ^ 2 + (p.y - Pr1.y) ^ 2) +
          Real.sqrt ((p.x - Pr2.x) ^ 2 + (p.y - Pr2.y) ^ 2) +
          Real.sqrt ((p.x - Pr3.x) ^ 2 + (p.y - Pr3.y) ^ 2)) *
         (Real.sqrt ((p.x - Pr1.x) ^ 2 + (p.y - Pr1.y) ^ 2) +
          Real.sqrt ((p.x - Pr2.x) ^ 2 + (p.y - Pr2.y) ^ 2) +
          Real.sqrt ((p.x - Pr3.x) ^ 2 + (p.y - Pr3.y) ^ 2)) / 4.0) +
      -0.0038 * ((|p.z - Pr1.z| + |p.z - Pr2.z| + |p.z - Pr3.z|) *
        (|p.z - Pr1.z| + |p.z - Pr2.z| + |p.z - Pr3.z|) / 4.0) +
      0.08 * Real.sqrt ((p.x - U.x) ^ 2 + (p.y - U.y) ^ 2 + (p.z - U.z) ^ 2)
      = 4.1 - 0.006 *
        ((Real.sqrt ((p.x - Pr1.x) ^ 2 + (p.y - Pr1.y) ^ 2) +
          Real.sqrt ((p.x - Pr2.x) ^ 2 + (p.y - Pr2.y) ^ 2) +
          Real.sqrt ((p.x - Pr3.x) ^ 2 + (p.y - Pr3.y) ^ 2)) ^ 2 / 4) -
      0.0038 * ((|p.z - Pr1.z| + |p.z - Pr2.z| + |p.z - Pr3.z|) ^ 2 / 4) +
      0.08 * Real.sqrt ((p.x - U.x) ^ 2 + (p.y - U.y) ^ 2 + (p.z - U.z) ^ 2) := by
    norm_num
    ring
  rw [hv]

/-- The logistic transform lands in the open unit interval; helper for the
range claim. -/
theorem logistic_mem_unit (v : ℝ) :
    0 ≤ Real.exp v / (1 + Real.exp v) ∧ Real.exp v / (1 + Real.exp v) ≤ 1 := by
  have hpos : (0 : ℝ) < Real.exp v := Real.exp_pos v
  have hden : (0 : ℝ) < 1 + Real.exp v := by linarith
  constructor
  · positivity
  · rw [div_le_one hden]
    linarith

/-- Over the real-valued embedding, both probability-model variants
return a value in the closed interval [0, 1].  This is only the
real-model complement of the range property: the float code computes the
logistic with `numpy.exp` in IEEE-754 binary64, which overflows for
large arguments — see `getDistances_overflow_input`. -/
theorem probabilityModels_mem_unitInterval (Pr1 Pr2 Pr3 p U : P3) :
    (0 ≤ CryoLogic.GetDistances Pr1 Pr2 p U ∧ CryoLogic.GetDistances Pr1 Pr2 p U ≤ 1) ∧
    (0 ≤ CryoLogic.GetDistances3 Pr1 Pr2 Pr3 p U ∧
      CryoLogic.GetDistances3 Pr1 Pr2 Pr3 p U ≤ 1) := by
  constructor
  · unfold CryoLogic.GetDistances
    simp only
    split
    · exact logistic_mem_unit _
    · norm_num
  · unfold CryoLogic.GetDistances3
    simp only
    exact logistic_mem_unit _

/-- Index-space scan limits: the six entries of the `lim` array returned by
`CryoLogic.getLimits` (a numpy int64 array, hence integer entries). -/
structure Lim where
  iMin : ℤ
  iMax : ℤ
  jMin : ℤ
  jMax : ℤ
  kMin : ℤ
  kMax : ℤ

/-- `numpy.amin` on an integer list (`getLimits` only applies it to the
probe coordinate arrays, which are nonempty in every run; the `[]` case is
an arbitrary default). -/
def amin : List ℤ → ℤ
  | [] => 0
  | h :: t => t.foldl min h

/-- `numpy.amax` on an integer list (see `amin`). -/
def amax : List ℤ → ℤ
  | [] => 0
  | h :: t => t.foldl max h

namespace CryoLogic

/-- The pre-override part of `CryoLogic.getLimits` (Cryo.py lines
316–338): map each probe tip through `rasToijkMatrix`, store the mapped
coordinates into integer arrays (numpy truncation toward zero), take
axis-wise min/max, add the (30, 30, 5) margins and apply the four clamp
branches. -/
noncomputable def getLimitsPre (probes : List P3) (rasToijkMatrix : Mat4) : Lim :=
  let limitX := probes.map fun pr =>
    pyTrunc (rasToijkMatrix.multiplyDoublePoint ⟨pr.x, pr.y, pr.z, 1⟩).x
  let limitY := probes.map fun pr =>
    pyTrunc (rasToijkMatrix.multiplyDoublePoint ⟨pr.x, pr.y, pr.z, 1⟩).y
  let limitZ := probes.map fun pr =>
    pyTrunc (rasToijkMatrix.multiplyDoublePoint ⟨pr.x, pr.y, pr.z, 1⟩).z
  let lim0 := amin limitX - 30
  let lim1 := amax limitX + 30
  let lim2 := amin limitY - 30
  let lim3 := amax limitY + 30
  let lim4 := amin limitZ - 5
  let lim5 := amax limitZ + 5
  let lim1 := if 190 ≤ lim1 then 190 else lim1
  let lim3 := if 168 ≤ lim3 then 168 else lim3
  let lim5 := if 19 ≤ lim5 then 19 else lim5
  let lim4 := if lim4 < 1 then 1 else lim4
  ⟨lim0, lim1, lim2, lim3, lim4, lim5⟩

/-- `CryoLogic.getLimits` (Cryo.py lines 316–347): computes the
probe-local limits (`getLimitsPre`) and then — under the source comment
"TEST FOR HEAT MAP" — overwrites all six bounds with the full fixed grid
extent before returning. -/
noncomputable def getLimits (probes : List P3) (rasToijkMatrix : Mat4) : Lim :=
  let lim := getLimitsPre probes rasToijkMatrix
  { lim with iMin := 0, iMax := 191, jMin := 0, jMax := 167, kMin := 0, kMax := (SLICE_N : ℤ) }

end CryoLogic

/-- The full fixed grid extent that `getLimits` always returns. -/
def fullGridLimits : Lim := ⟨0, 191, 0, 167, 0, (SLICE_N : ℤ)⟩

/-- Modelled from the spec (§4.3, `computeLimits`): map each probe tip to
index space (the reference stores the mapped coordinates in integer
arrays, truncating toward zero), take axis-wise min and max across all
probes, expand by margin (30, 30, 5), clamp the upper bounds to
(190, 168, 19) and the lower slice bound to at least 1. -/
noncomputable def computeLimitsSpec (probes : List P3) (physicalToIndex : Mat4) : Lim :=
  let idx := probes.map fun pr => physicalToIndex.multiplyDoublePoint ⟨pr.x, pr.y, pr.z, 1⟩
  let xs := idx.map fun q => pyTrunc q.x
  let ys := idx.map fun q => pyTrunc q.y
  let zs := idx.map fun q => pyTrunc q.z
  ⟨amin xs - 30, min (amax xs + 30) 190,
   amin ys - 30, min (amax ys + 30) 168,
   max (amin zs - 5) 1, min (amax zs + 5) 19⟩

/-- Python `range(a, b)` over the integers, as a list. -/
def rangeZ (a b : ℤ) : List ℤ := (List.range (b - a).toNat).map fun (t : ℕ) => a + (t : ℤ)

/-- Membership in `rangeZ` is the half-open interval `[a, b)`. -/
theorem mem_rangeZ (a b x : ℤ) : x ∈ rangeZ a b ↔ a ≤ x ∧ x < b := by
  constructor
  · intro hx
    rcases List.mem_map.mp hx with ⟨t, ht, rfl⟩
    have ht2 := List.mem_range.mp ht
    omega
  · intro h
    exact List.mem_map.mpr ⟨(x - a).toNat, List.mem_range.mpr (by omega), by omega⟩

/-- The triple-nested voxel scan of `CryoLogic.run` (Cryo.py lines
488–490): `for i in range(lim[0], lim[1]): for j in range(lim[2],
lim[3]): for k in range(lim[4], lim[5])`, with no early exit. -/
def voxelList (lim : Lim) : List (ℤ × ℤ × ℤ) :=
  (rangeZ lim.iMin lim.iMax).flatMap fun i =>
    (rangeZ lim.jMin lim.jMax).flatMap fun j =>
      (rangeZ lim.kMin lim.kMax).map fun k => (i, j, k)

/-- A voxel is scanned exactly when each coordinate lies in its half-open
limit interval. -/
theorem mem_voxelList (lim : Lim) (i j k : ℤ) :
    (i, j, k) ∈ voxelList lim ↔
      (lim.iMin ≤ i ∧ i < lim.iMax ∧ lim.jMin ≤ j ∧ j < lim.jMax ∧
        lim.kMin ≤ k ∧ k < lim.kMax) := by
  simp only [voxelList, List.mem_flatMap, List.mem_map, mem_rangeZ, Prod.mk.injEq]
  constructor
  · rintro ⟨i', hi', j', hj', k', hk', rfl, rfl, rfl⟩
    exact ⟨hi'.1, hi'.2, hj'.1, hj'.2, hk'.1, hk'.2⟩
  · rintro ⟨h1, h2, h3, h4, h5, h6⟩
    exact ⟨i, ⟨h1, h2⟩, j, ⟨h3, h4⟩, k, ⟨h5, h6⟩, rfl, rfl, rfl⟩

/-- C4: for every probe set and transform, the scan bounds are overridden
to the full fixed grid extent after the probe-local limit computation, and
the scanned voxel set is exactly the full extent `[0,191) × [0,167) ×
[0,SLICE_N)` — the probe-local limits never influence which voxels are
scanned. -/
theorem run_scans_full_grid (probes : List P3) (M : Mat4) (i j k : ℤ) :
    CryoLogic.getLimits probes M = fullGridLimits ∧
    ((i, j, k) ∈ voxelList (CryoLogic.getLimits probes M) ↔
      0 ≤ i ∧ i < 191 ∧ 0 ≤ j ∧ j < 167 ∧ 0 ≤ k ∧ k < (SLICE_N : ℤ)) := by
  refine ⟨rfl, ?_⟩
  simpa using mem_voxelList fullGridLimits i j k

/-- C5 (amended): the pre-override limit computation agrees with the
spec's `computeLimits` description, but `getLimits` then overwrites all
six bounds with the full grid extent, so its returned value is always the
constant `fullGridLimits`. -/
theorem getLimits_pre_spec_and_override (probes : List P3) (M : Mat4) :
    CryoLogic.getLimitsPre probes M = computeLimitsSpec probes M ∧
    CryoLogic.getLimits probes M = fullGridLimits := by
  constructor
  · unfold CryoLogic.getLimitsPre computeLimitsSpec
    simp only [List.map_map, Function.comp_def]
    congr 1 <;> split_ifs <;> omega
  · rfl

/-- The identity 4×4 transform, used as a concrete counterexample
transform. -/
def idMat4 : Mat4 := ⟨1, 0, 0, 0, 0, 1, 0, 0, 0, 0, 1, 0, 0, 0, 0, 1⟩

/-- C5 counterexample: with two probes at (100, 100, 10) and
(110, 120, 12) and the identity physical-to-index transform, the spec's
described six scalars are (70, 140, 70, 150, 5, 17), but `getLimits`
returns the overridden full-grid extent — so the routine does not return
the described scalars. -/
theorem getLimits_ne_computeLimitsSpec :
    CryoLogic.getLimits [⟨100, 100, 10⟩, ⟨110, 120, 12⟩] idMat4 ≠
      computeLimitsSpec [⟨100, 100, 10⟩, ⟨110, 120, 12⟩] idMat4 := by
  have hspec : computeLimitsSpec [⟨100, 100, 10⟩, ⟨110, 120, 12⟩] idMat4 =
      ⟨70, 140, 70, 150, 5, 17⟩ := by
    unfold computeLimitsSpec idMat4 Mat4.multiplyDoublePoint pyTrunc amin amax
    norm_num
  have hlim : CryoLogic.getLimits [⟨100, 100, 10⟩, ⟨110, 120, 12⟩] idMat4 =
      fullGridLimits := rfl
  rw [hspec, hlim]
  intro h
  have := congrArg Lim.iMax h
  simp [fullGridLimits] at this

/-- The dimensions passed to `imageData.SetDimensions(192, 168, nOfSlices)`
(Cryo.py lines 467 and 483), in (x, y, z) order. -/
def imageDataDims : ℤ × ℤ × ℤ := (192, 168, (SLICE_N : ℤ))

/-- The coordinate argument order of
`imageData.SetScalarComponentFromFloat(k, j, i, 0, ·)` (Cryo.py line 500):
the voxel (i, j, k) is written at image coordinate (x, y, z) = (k, j, i). -/
def imageWriteCoord (v : ℤ × ℤ × ℤ) : ℤ × ℤ × ℤ := (v.2.2, v.2.1, v.1)

/-- A 3-D coordinate lies inside 0-based extents `dims`. -/
def inBounds3 (dims c : ℤ × ℤ × ℤ) : Prop :=
  0 ≤ c.1 ∧ c.1 < dims.1 ∧ 0 ≤ c.2.1 ∧ c.2.1 < dims.2.1 ∧ 0 ≤ c.2.2 ∧ c.2.2 < dims.2.2

/-- The per-run read-only inputs of the voxel scan loop of `run`:
the index-to-physical transform, the three probe tips, the resampled
urethra row lookup (`UretraMatrix[k]`), and the probe-count mode. -/
structure ScanEnv where
  ijkToRas : Mat4
  probe1 : P3
  probe2 : P3
  probe3 : P3
  uretra : ℤ → P3
  nofProbes : ℕ

/-- The mutable arrays of the scan loop of `run`: the vtkImageData buffer
(indexed (x, y, z)), the numpy arrays `img2` (raw 10×probability) and
`img3` (binary mask), both indexed (k, j, i), the flat `probs` array and
its write counter `f`. -/
structure ScanState where
  imageData : ℤ × ℤ × ℤ → ℝ
  img2 : ℤ × ℤ × ℤ → ℝ
  img3 : ℤ × ℤ × ℤ → ℝ
  probs : ℕ → ℝ
  f : ℕ

/-- The state before the scan: `img2`, `img3`, `probs` are `numpy.zeros`
(lines 474–477), the counter `f` is 0 (line 487).  (The claims never read
an unwritten `imageData` cell, so its allocation-time contents are
modelled as 0 as well.) -/
noncomputable def initState : ScanState :=
  ⟨fun _ => 0, fun _ => 0, fun _ => 0, fun _ => 0, 0⟩

namespace CryoLogic

/-- The probability evaluated at voxel (i, j, k) by the scan body
(Cryo.py lines 491–499): map (i, j, k, 1) to physical space, and apply
`GetDistances3` in 3-probe mode, `GetDistances` otherwise, with the
urethra point `UretraMatrix[k]`. -/
noncomputable def voxelProb (env : ScanEnv) (i j k : ℤ) : ℝ :=
  let p4 := env.ijkToRas.multiplyDoublePoint ⟨(i : ℝ), (j : ℝ), (k : ℝ), 1⟩
  let p : P3 := ⟨p4.x, p4.y, p4.z⟩
  if env.nofProbes = 3 then
    GetDistances3 env.probe1 env.probe2 env.probe3 p (env.uretra k)
  else
    GetDistances env.probe1 env.probe2 p (env.uretra k)

/-- One iteration of the scan body (Cryo.py lines 491–506): write
`int(10.0 * prob)` into the image buffer at (k, j, i), `10.0 * prob` into
`img2[k, j, i]`, `prob` into `probs[f]`, increment `f`, and set
`img3[k, j, i] = 1.0` when `prob > THRESHOLD`. -/
noncomputable def scanStep (env : ScanEnv) (st : ScanState) (v : ℤ × ℤ × ℤ) : ScanState :=
  let prob := voxelProb env v.1 v.2.1 v.2.2
  { imageData := Function.update st.imageData (imageWriteCoord v) ((pyTrunc (10.0 * prob) : ℤ) : ℝ)
    img2 := Function.update st.img2 (v.2.2, v.2.1, v.1) (10.0 * prob)
    img3 := if prob > THRESHOLD then Function.update st.img3 (v.2.2, v.2.1, v.1) 1.0 else st.img3
    probs := Function.update st.probs st.f prob
    f := st.f + 1 }

/-- The full voxel scan: fold the scan body over the scanned voxel list,
with no early exit. -/
noncomputable def runScan (env : ScanEnv) (lim : Lim) : ScanState :=
  (voxelList lim).foldl (scanStep env) initState

end CryoLogic

/-- `numpy.linspace(a, b, n)` (endpoint=True): n evenly spaced samples
from a to b. -/
noncomputable def linspace (a b : ℝ) (n : ℕ) : List ℝ :=
  (List.range n).map fun (t : ℕ) => a + (t : ℝ) * (b - a) / ((n : ℝ) - 1)

/-- Modelled from the spec (§4.1 CurveFitter): the spline evaluators
x(z) and y(z) produced by `scipy.interpolate.CubicSpline(z, x,
bc_type='natural')` are external library code; they are modelled as
abstract interpolating functions `fx`, `fy` handed to the fitter.
`curveFit` then performs the resampling of `run` (Cryo.py lines
381–393): z is resampled linearly into `SLICE_N` values from the first
to the last input z, and each resampled point is
(x, y, z) = (fx z, fy z, z). -/
noncomputable def curveFit (fx fy : ℝ → ℝ) (zs : List ℝ) : List P3 :=
  let z_new := linspace (zs.getD 0 0) (zs.getD (zs.length - 1) 0) SLICE_N
  z_new.map fun t => ⟨fx t, fy t, t⟩

/-- Spec §7: degenerate marker input — fewer than 2 urethra markers, or
z values that are not strictly increasing. -/
inductive DegenerateInputError where
  | degenerate

namespace CryoLogic

/-- Modelled from the spec (§7): the core of `CryoLogic.run` (Cryo.py
lines 349–507) stripped of its scene-graph collaborators.
`imageThreshold` is `run`'s unused second parameter (line 349);
`voxelArray` holds the input volume's voxel intensities, read at line 462
and never used afterwards (its only mention is a commented-out debug
line).  The validation that the spec names `DegenerateInputError` —
fewer than 2 urethra markers or non-increasing z, detected in the
reference inside the external `scipy` spline constructor at line 381 —
is modelled from the spec's words as an explicit up-front check; on
success the resampled urethra curve drives the voxel scan over the
`getLimits` bounds, as in the source. -/
noncomputable def runModel (imageThreshold : ℝ) (voxelArray : ℤ × ℤ × ℤ → ℝ)
    (fx fy : ℝ → ℝ) (markers : List P3)
    (probe1 probe2 probe3 : P3) (nofProbes : ℕ)
    (ijkToRas rasToijk : Mat4) : Except DegenerateInputError ScanState :=
  if 2 ≤ markers.length ∧ List.Chain' (· < ·) (markers.map P3.z) then
    let uretraList := curveFit fx fy (markers.map P3.z)
    let env : ScanEnv := ⟨ijkToRas, probe1, probe2, probe3,
      fun k => uretraList.getD k.toNat default, nofProbes⟩
    let lim := getLimits [probe1, probe2] rasToijk
    Except.ok (runScan env lim)
  else
    Except.error DegenerateInputError.degenerate

end CryoLogic

/-- C3 (amended): for each scanned voxel (i, j, k) the scan body writes
`int(10 * probability)` — truncation toward zero, not `round` — into the
scaled-probability image at (k, j, i), writes `10 * probability` into the
raw-probability array at (k, j, i), and sets the mask at (k, j, i) to 1.0
exactly when the probability exceeds `THRESHOLD`, otherwise leaving the
cell at its previous value (pre-initialized 0). -/
theorem scanStep_writes (env : ScanEnv) (st : ScanState) (i j k : ℤ) :
    (CryoLogic.scanStep env st (i, j, k)).imageData (k, j, i)
        = ((pyTrunc (10.0 * CryoLogic.voxelProb env i j k) : ℤ) : ℝ) ∧
    (CryoLogic.scanStep env st (i, j, k)).img2 (k, j, i)
        = 10.0 * CryoLogic.voxelProb env i j k ∧
    (CryoLogic.scanStep env st (i, j, k)).img3 (k, j, i)
        = (if CryoLogic.voxelProb env i j k > THRESHOLD then 1.0 else st.img3 (k, j, i)) ∧
    initState.img3 (k, j, i) = 0 := by
  refine ⟨?_, ?_, ?_, rfl⟩
  · simp [CryoLogic.scanStep, imageWriteCoord]
  · simp [CryoLogic.scanStep]
  · by_cases h : CryoLogic.voxelProb env i j k > THRESHOLD <;>
      simp [CryoLogic.scanStep, h]

/-- The index-to-physical transform of the C3 counterexample: a pure
translation carrying voxel (0, 0, 0) to the physical point
(12.5, 2.5, 0). -/
noncomputable def cexMat : Mat4 :=
  ⟨1, 0, 0, 12.5, 0, 1, 0, 2.5, 0, 0, 1, 0, 0, 0, 0, 1⟩

/-- The scan environment of the C3 counterexample: 2-probe mode, both
probes at the origin, urethra point (22.5, 2.5, 0) — 10 units from the
sampled physical point, so the cutoff branch is not taken and the linear
combination evaluates to exactly 2. -/
noncomputable def cexEnv : ScanEnv :=
  ⟨cexMat, ⟨0, 0, 0⟩, ⟨0, 0, 0⟩, ⟨0, 0, 0⟩, fun _ => ⟨22.5, 2.5, 0⟩, 2⟩

/-- At the counterexample voxel the evaluated probability is exactly
`exp 2 / (1 + exp 2)` (≈ 0.8808). -/
theorem cexEnv_voxelProb : CryoLogic.voxelProb cexEnv 0 0 0 = Real.exp 2 / (1 + Real.exp 2) := by
  have h100 : Real.sqrt 100 = 10 := by
    rw [show (100 : ℝ) = 10 ^ 2 by norm_num]
    exact Real.sqrt_sq (by norm_num)
  have hsum : (Real.sqrt 325 / Real.sqrt 2 + Real.sqrt 325 / Real.sqrt 2) *
      (Real.sqrt 325 / Real.sqrt 2 + Real.sqrt 325 / Real.sqrt 2) = 650 := by
    have h325 : Real.sqrt 325 ^ 2 = 325 := Real.sq_sqrt (by norm_num)
    have h2 : Real.sqrt 2 ^ 2 = 2 := Real.sq_sqrt (by norm_num)
    have h2ne : Real.sqrt 2 ≠ 0 := by positivity
    field_simp
    nlinarith [h325, h2]
  unfold CryoLogic.voxelProb cexEnv cexMat Mat4.multiplyDoublePoint CryoLogic.GetDistances
  norm_num [h100]
  rw [hsum]
  norm_num

/-- Two-sided bound on `10 * exp 2 / (1 + exp 2)`: it lies in [8.5, 9). -/
theorem cex_value_bounds :
    8.5 ≤ 10.0 * (Real.exp 2 / (1 + Real.exp 2)) ∧
    10.0 * (Real.exp 2 / (1 + Real.exp 2)) < 9 := by
  have he2 : Real.exp 2 = Real.exp 1 * Real.exp 1 := by
    rw [show (2 : ℝ) = 1 + 1 by norm_num, Real.exp_add]
  have hlo : (7.38 : ℝ) < Real.exp 2 := by
    rw [he2]
    nlinarith [Real.exp_one_gt_d9]
  have hhi : Real.exp 2 < 7.399 := by
    rw [he2]
    nlinarith [Real.exp_one_lt_d9, Real.exp_pos 1]
  have hden : (0 : ℝ) < 1 + Real.exp 2 := by linarith
  constructor
  · rw [mul_div_assoc', le_div_iff₀ hden]
    linarith
  · rw [mul_div_assoc', div_lt_iff₀ hden]
    linarith

/-- C3 counterexample: at the concrete scanned voxel (0, 0, 0) of
`cexEnv`, the value the scanner writes into the scaled-probability image
is `int(10 * prob) = 8`, which differs from `round(10 * prob) = 9` — so
the claim's `round` description fails on the code. -/
theorem scanStep_image_write_ne_round :
    (CryoLogic.scanStep cexEnv initState (0, 0, 0)).imageData (0, 0, 0) ≠
      ((round (10.0 * CryoLogic.voxelProb cexEnv 0 0 0) : ℤ) : ℝ) := by
  have hwrite : (CryoLogic.scanStep cexEnv initState (0, 0, 0)).imageData (0, 0, 0)
      = ((pyTrunc (10.0 * CryoLogic.voxelProb cexEnv 0 0 0) : ℤ) : ℝ) := by
    simp [CryoLogic.scanStep, imageWriteCoord]
  have hb := cex_value_bounds
  rw [cexEnv_voxelProb] at hwrite ⊢
  have htrunc : pyTrunc (10.0 * (Real.exp 2 / (1 + Real.exp 2))) = 8 := by
    unfold pyTrunc
    rw [if_pos (by nlinarith [hb.1])]
    rw [Int.floor_eq_iff]
    constructor
    · push_cast
      linarith [hb.1]
    · push_cast
      linarith [hb.2]
  have hround : round (10.0 * (Real.exp 2 / (1 + Real.exp 2))) = 9 := by
    rw [round_eq, Int.floor_eq_iff]
    constructor
    · push_cast
      linarith [hb.1]
    · push_cast
      linarith [hb.2]
  rw [hwrite, htrunc, hround]
  norm_num

/-- C8: the safety claim fails on the code — the voxel
(i, j, k) = (40, 0, 0) is scanned by every run, and its image-buffer
write coordinate (x, y, z) = (k, j, i) = (0, 0, 40) lies outside the
declared `imageData` dimensions (192, 168, SLICE_N = 40): the z index
equals the z extent. -/
theorem scanned_voxel_writes_image_out_of_bounds (probes : List P3) (M : Mat4) :
    ((40 : ℤ), (0 : ℤ), (0 : ℤ)) ∈ voxelList (CryoLogic.getLimits probes M) ∧
    ¬ inBounds3 imageDataDims (imageWriteCoord (40, 0, 0)) := by
  constructor
  · exact (mem_voxelList (CryoLogic.getLimits probes M) 40 0 0).mpr
      (by norm_num [CryoLogic.getLimits, SLICE_N])
  · intro h
    have h6 := h.2.2.2.2.2
    norm_num [imageWriteCoord, imageDataDims, SLICE_N] at h6

/-- C9: for every marker input with fewer than 2 urethra markers or with
z values that are not strictly increasing, the run fails with
`DegenerateInputError` and produces no output state. -/
theorem run_degenerate_input_errors (imageThreshold : ℝ) (voxelArray : ℤ × ℤ × ℤ → ℝ)
    (fx fy : ℝ → ℝ) (markers : List P3) (p1 p2 p3 : P3) (n : ℕ) (M1 M2 : Mat4)
    (h : markers.length < 2 ∨ ¬ List.Chain' (· < ·) (markers.map P3.z)) :
    CryoLogic.runModel imageThreshold voxelArray fx fy markers p1 p2 p3 n M1 M2 =
      Except.error DegenerateInputError.degenerate := by
  unfold CryoLogic.runModel
  rw [if_neg]
  rintro ⟨h1, h2⟩
  rcases h with h | h
  · omega
  · exact h h2

/-- Witness for C9: the empty marker list is degenerate and the run
errors on it. -/
theorem run_degenerate_input_errors_witness :
    (([] : List P3).length < 2 ∨ ¬ List.Chain' (· < ·) (([] : List P3).map P3.z)) ∧
    CryoLogic.runModel 0 (fun _ => 0) id id [] ⟨0, 0, 0⟩ ⟨0, 0, 0⟩ ⟨0, 0, 0⟩ 2 idMat4 idMat4 =
      Except.error DegenerateInputError.degenerate :=
  ⟨Or.inl (by norm_num),
   run_degenerate_input_errors 0 (fun _ => 0) id id [] ⟨0, 0, 0⟩ ⟨0, 0, 0⟩ ⟨0, 0, 0⟩ 2
     idMat4 idMat4 (Or.inl (by norm_num))⟩

/-- C10: two runs agreeing on probes, markers and transforms but
differing in the `imageThreshold` argument and/or the input volume's
voxel intensities produce identical output states, and the mask threshold
actually applied is the module constant `THRESHOLD = 0.8`, not the
`imageThreshold` parameter. -/
theorem run_independent_of_imageThreshold_and_voxels
    (t t' : ℝ) (va va' : ℤ × ℤ × ℤ → ℝ) (fx fy : ℝ → ℝ) (markers : List P3)
    (p1 p2 p3 : P3) (n : ℕ) (M1 M2 : Mat4) :
    CryoLogic.runModel t va fx fy markers p1 p2 p3 n M1 M2 =
      CryoLogic.runModel t' va' fx fy markers p1 p2 p3 n M1 M2 ∧
    THRESHOLD = 0.8 :=
  ⟨rfl, rfl⟩

/-- Reading an element of a mapped range list. -/
theorem getD_map_range {α : Type} (g : ℕ → α) (N n : ℕ) (d : α) (h : n < N) :
    ((List.range N).map g).getD n d = g n := by
  rw [List.getD_eq_getElem?_getD]
  simp [List.getElem?_map, List.getElem?_range, h]

/-- The n-th evenly spaced resampled z value between the first and last
marker z (the curve fitter resamples `SLICE_N = 40` values, so the step is
1/39 of the z span). -/
noncomputable def resampledZ (markers : List P3) (n : ℕ) : ℝ :=
  (markers.map P3.z).getD 0 0 +
    (n : ℝ) * ((markers.map P3.z).getD (markers.length - 1) 0 -
      (markers.map P3.z).getD 0 0) / 39

/-- C7: for every marker sequence with at least 2 points and strictly
increasing z, the curve reconstruction produces exactly `SLICE_N = 40`
points; the n-th point is (fx zₙ, fy zₙ, zₙ) with zₙ evenly spaced —
constant consecutive difference (z_last − z_first)/39 — between the first
and last input z, whose values the first and last resampled z equal; the
x and y coordinates come from the two independent (spec-modelled natural
cubic spline) evaluators fx and fy applied at the resampled z. -/
theorem curveFit_resamples (fx fy : ℝ → ℝ) (markers : List P3)
    (h2 : 2 ≤ markers.length)
    (hmono : List.Chain' (· < ·) (markers.map P3.z))
    (hfx : ∀ q ∈ markers, fx q.z = q.x) (hfy : ∀ q ∈ markers, fy q.z = q.y) :
    (curveFit fx fy (markers.map P3.z)).length = SLICE_N ∧
    ((curveFit fx fy (markers.map P3.z)).getD 0 default).z
        = (markers.map P3.z).getD 0 0 ∧
    ((curveFit fx fy (markers.map P3.z)).getD (SLICE_N - 1) default).z
        = (markers.map P3.z).getD (markers.length - 1) 0 ∧
    (∀ n < SLICE_N, (curveFit fx fy (markers.map P3.z)).getD n default =
      ⟨fx (resampledZ markers n), fy (resampledZ markers n), resampledZ markers n⟩) ∧
    (∀ n, n + 1 < SLICE_N →
      ((curveFit fx fy (markers.map P3.z)).getD (n + 1) default).z
        - ((curveFit fx fy (markers.map P3.z)).getD n default).z
        = ((markers.map P3.z).getD (markers.length - 1) 0 -
            (markers.map P3.z).getD 0 0) / 39) := by
  have key : ∀ n, n < SLICE_N → (curveFit fx fy (markers.map P3.z)).getD n default =
      ⟨fx (resampledZ markers n), fy (resampledZ markers n), resampledZ markers n⟩ := by
    intro n hn
    unfold curveFit linspace
    rw [List.map_map, getD_map_range _ _ _ _ hn]
    unfold resampledZ
    simp only [Function.comp_apply, List.length_map]
    norm_num [SLICE_N]
  refine ⟨?_, ?_, ?_, key, ?_⟩
  · unfold curveFit linspace
    simp
  · rw [key 0 (by norm_num [SLICE_N])]
    unfold resampledZ
    norm_num
  · rw [key (SLICE_N - 1) (by norm_num [SLICE_N])]
    unfold resampledZ
    norm_num [SLICE_N]
  · intro n hn
    rw [key (n + 1) hn, key n (by omega)]
    unfold resampledZ
    push_cast
    ring

/-- Witness for C7: two markers (0,0,0) and (39,39,39) with the identity
interpolants. -/
theorem curveFit_resamples_witness :
    (2 ≤ ([⟨0, 0, 0⟩, ⟨39, 39, 39⟩] : List P3).length) ∧
    List.Chain' (· < ·) (([⟨0, 0, 0⟩, ⟨39, 39, 39⟩] : List P3).map P3.z) ∧
    (∀ q ∈ ([⟨0, 0, 0⟩, ⟨39, 39, 39⟩] : List P3), id q.z = q.x) ∧
    (∀ q ∈ ([⟨0, 0, 0⟩, ⟨39, 39, 39⟩] : List P3), id q.z = q.y) ∧
    ((curveFit id id (([⟨0, 0, 0⟩, ⟨39, 39, 39⟩] : List P3).map P3.z)).length = SLICE_N ∧
     ((curveFit id id (([⟨0, 0, 0⟩, ⟨39, 39, 39⟩] : List P3).map P3.z)).getD 0 default).z
         = (([⟨0, 0, 0⟩, ⟨39, 39, 39⟩] : List P3).map P3.z).getD 0 0 ∧
     ((curveFit id id (([⟨0, 0, 0⟩, ⟨39, 39, 39⟩] : List P3).map P3.z)).getD
         (SLICE_N - 1) default).z
         = (([⟨0, 0, 0⟩, ⟨39, 39, 39⟩] : List P3).map P3.z).getD
             (([⟨0, 0, 0⟩, ⟨39, 39, 39⟩] : List P3).length - 1) 0 ∧
     (∀ n < SLICE_N,
        (curveFit id id (([⟨0, 0, 0⟩, ⟨39, 39, 39⟩] : List P3).map P3.z)).getD n default =
          ⟨id (resampledZ [⟨0, 0, 0⟩, ⟨39, 39, 39⟩] n),
           id (resampledZ [⟨0, 0, 0⟩, ⟨39, 39, 39⟩] n),
           resampledZ [⟨0, 0, 0⟩, ⟨39, 39, 39⟩] n⟩) ∧
     (∀ n, n + 1 < SLICE_N →
        ((curveFit id id (([⟨0, 0, 0⟩, ⟨39, 39, 39⟩] : List P3).map P3.z)).getD
            (n + 1) default).z
          - ((curveFit id id (([⟨0, 0, 0⟩, ⟨39, 39, 39⟩] : List P3).map P3.z)).getD
              n default).z
          = ((([⟨0, 0, 0⟩, ⟨39, 39, 39⟩] : List P3).map P3.z).getD
               (([⟨0, 0, 0⟩, ⟨39, 39, 39⟩] : List P3).length - 1) 0 -
             (([⟨0, 0, 0⟩, ⟨39, 39, 39⟩] : List P3).map P3.z).getD 0 0) / 39)) :=
  ⟨by norm_num,
   by simp [List.chain'_cons],
   by intro q hq; fin_cases hq <;> rfl,
   by intro q hq; fin_cases hq <;> rfl,
   curveFit_resamples id id [⟨0, 0, 0⟩, ⟨39, 39, 39⟩] (by norm_num)
     (by simp [List.chain'_cons])
     (by intro q hq; fin_cases hq <;> rfl)
     (by intro q hq; fin_cases hq <;> rfl)⟩

namespace CryoLogic

/-- The `value` local computed by `CryoLogic.GetDistances` (Cryo.py lines
282–310): the exact argument the source passes to `numpy.exp` in the
2-probe logistic transform. -/
noncomputable def GetDistancesValue (Pr1 Pr2 p Uretra : P3) : ℝ :=
  let par0 : ℝ := 4.1
  let par1 : ℝ := -0.006
  let par2 : ℝ := -0.0038
  let par3 : ℝ := 0.18
  let distance1_0 := (-Pr1.x + p.x) * (-Pr1.x + p.x)
  let distance1_1 := (-Pr1.y + p.y) * (-Pr1.y + p.y)
  let distance1_2 := (-Pr1.z + p.z)
  let distance2_0 := (Pr2.x - p.x) * (Pr2.x - p.x)
  let distance2_1 := (Pr2.y - p.y) * (Pr2.y - p.y)
  let distance2_2 := (-Pr2.z + p.z)
  let distance3_0 := (Uretra.x - p.x) * (Uretra.x - p.x)
  let distance3_1 := (Uretra.y - p.y) * (Uretra.y - p.y)
  let distance3_2 := (Uretra.z - p.z) * (Uretra.z - p.z)
  let suma := Real.sqrt (distance1_0 + distance1_1) + Real.sqrt (distance2_0 + distance2_1)
  let suma := suma * suma / 1.0
  let suma2 := |distance1_2| + |distance2_2|
  let suma2 := suma2 * suma2 / 1.0
  par0 + par1 * suma + par2 * suma2 +
    par3 * Real.sqrt (distance3_0 + distance3_1 + distance3_2)

end CryoLogic

/-- Modelled from the spec (§4.4 numeric semantics: "the reference uses
double-precision exponentials; must not overflow"): IEEE-754 binary64
`numpy.exp` overflows for any argument above the natural logarithm of
the largest finite double, ln((2 − 2⁻⁵²)·2¹⁰²³) ≈ 709.7827, returning
`inf` — and the reference's unclamped logistic quotient then evaluates
`inf / (1 + inf) = nan`. -/
noncomputable def float64ExpOverflowBound : ℝ := 709.7827128933841

/-- At the C6 failing input — both probes and the sample point at the
origin, urethra point 4000 units away — the exp argument is exactly
724.1. -/
theorem overflow_input_value :
    CryoLogic.GetDistancesValue ⟨0, 0, 0⟩ ⟨0, 0, 0⟩ ⟨0, 0, 0⟩ ⟨4000, 0, 0⟩ = 724.1 := by
  have h16 : Real.sqrt 16000000 = 4000 := by
    rw [show (16000000 : ℝ) = 4000 ^ 2 by norm_num]
    exact Real.sqrt_sq (by norm_num)
  unfold CryoLogic.GetDistancesValue
  norm_num [h16]

/-- At the C6 failing input the real-valued embedding of `GetDistances`
takes the logistic branch on the overflowing argument. -/
theorem overflow_input_getDistances :
    CryoLogic.GetDistances ⟨0, 0, 0⟩ ⟨0, 0, 0⟩ ⟨0, 0, 0⟩ ⟨4000, 0, 0⟩ =
      Real.exp 724.1 / (1 + Real.exp 724.1) := by
  have h16 : Real.sqrt 16000000 = 4000 := by
    rw [show (16000000 : ℝ) = 4000 ^ 2 by norm_num]
    exact Real.sqrt_sq (by norm_num)
  unfold CryoLogic.GetDistances
  norm_num [h16]

/-- C6: the saturation claim fails on the float code.  At a concrete
finite input — both probes and the sample point at the origin, the
urethra point 4000 units away — the 2-probe model takes its logistic
branch, and the argument it hands to `numpy.exp` (the source's `value`
local, embedded as `GetDistancesValue`) equals 724.1, strictly above the
IEEE-754 binary64 overflow bound ≈ 709.78: `numpy.exp` returns `inf`
there, so the unclamped quotient `inf / (1 + inf)` is `nan`, outside
[0, 1].  (Over the real-valued embedding the same expression is the
logistic of that argument, as the last conjunct records.) -/
theorem getDistances_overflow_input :
    CryoLogic.GetDistancesValue ⟨0, 0, 0⟩ ⟨0, 0, 0⟩ ⟨0, 0, 0⟩ ⟨4000, 0, 0⟩ = 724.1 ∧
    float64ExpOverflowBound <
      CryoLogic.GetDistancesValue ⟨0, 0, 0⟩ ⟨0, 0, 0⟩ ⟨0, 0, 0⟩ ⟨4000, 0, 0⟩ ∧
    CryoLogic.GetDistances ⟨0, 0, 0⟩ ⟨0, 0, 0⟩ ⟨0, 0, 0⟩ ⟨4000, 0, 0⟩ =
      Real.exp (CryoLogic.GetDistancesValue ⟨0, 0, 0⟩ ⟨0, 0, 0⟩ ⟨0, 0, 0⟩ ⟨4000, 0, 0⟩) /
        (1 + Real.exp (CryoLogic.GetDistancesValue ⟨0, 0, 0⟩ ⟨0, 0, 0⟩ ⟨0, 0, 0⟩ ⟨4000, 0, 0⟩)) :=
  ⟨overflow_input_value,
   by rw [overflow_input_value]; unfold float64ExpOverflowBound; norm_num,
   by rw [overflow_input_value]; exact overflow_input_getDistances⟩
